import Mathlib

/-!
Shallow embedding of the client-side order-ledger logic of the
owner-dashboard repository: the Dashboard screen's query/merge/reset
operations (client/src/pages/Dashboard.tsx and its sibling variants),
the OrderCard item normalisation, the WebSocket hook's message
dispatch, and the highlight-expiry timer.

JavaScript numbers are modelled as `Option ℚ`, with `none` standing
for NaN (the order amounts in play are plain decimals, exactly
representable in ℚ).  Fields that may be absent are `Option`-valued,
and JS truthiness (`x || d` defaults) is modelled explicitly.
-/

/-- A JS value as it can appear in an order's `total` field:
`undefined`/`null`, a number, or a string. -/
inductive JVal where
  | undef : JVal
  | num : ℚ → JVal
  | str : String → JVal
  deriving Repr, DecidableEq

/-- A JS number: `none` is NaN. -/
abbrev JNum := Option ℚ

/-- JS addition: NaN propagates. -/
def jsAdd (a b : JNum) : JNum :=
  match a, b with
  | some x, some y => some (x + y)
  | _, _ => none

/-- JS truthiness of a `JVal` (0, "" and undefined are falsy). -/
def jvTruthy : JVal → Bool
  | .undef => false
  | .num q => q != 0
  | .str s => s != ""

/-- The `v || 0` idiom applied before `parseFloat`. -/
def jsOrZero (v : JVal) : JVal :=
  if jvTruthy v then v else .num 0

/-- JS whitespace characters (the ASCII core of `\s`). -/
def isJsSpace (c : Char) : Bool :=
  c = ' ' || c = '\t' || c = '\n' || c = '\r' || c = '\x0b' || c = '\x0c'

/-- Digit list to a natural number, as `parseInt` reads a digit run. -/
def digitsToNat (ds : List Char) : Nat :=
  ds.foldl (fun acc c => acc * 10 + (c.toNat - '0'.toNat)) 0

/-- Value of a fraction-digit run `d₁…dₖ` as `0.d₁…dₖ`. -/
def fracDigitsVal (ds : List Char) : ℚ :=
  (digitsToNat ds : ℚ) / (10 : ℚ) ^ ds.length

/-- Unsigned decimal prefix of a character list, as `parseFloat` reads
it: an integer part and/or a dot with a fraction part; trailing
garbage is ignored; `none` when no digits can be read at all. -/
def parseUnsignedDec (cs : List Char) : Option ℚ :=
  let ip := cs.takeWhile Char.isDigit
  let rest := cs.dropWhile Char.isDigit
  match rest with
  | '.' :: rest2 =>
      let fp := rest2.takeWhile Char.isDigit
      if ip.isEmpty && fp.isEmpty then none
      else some ((digitsToNat ip : ℚ) + fracDigitsVal fp)
  | _ => if ip.isEmpty then none else some (digitsToNat ip : ℚ)

/-- Model of `parseFloat` on a string: leading whitespace, an optional sign,
then a decimal number; NaN (`none`) when nothing numeric leads.
(Exponent forms are not modelled; no repository value uses them.) -/
def parseFloatStr (s : String) : JNum :=
  let cs := s.data.dropWhile isJsSpace
  match cs with
  | '-' :: rest => (parseUnsignedDec rest).map Neg.neg
  | '+' :: rest => parseUnsignedDec rest
  | rest => parseUnsignedDec rest

/-- Model of `parseFloat` on a `JVal` as the dashboards call it. -/
def parseFloatJV : JVal → JNum
  | .undef => none
  | .num q => some q
  | .str s => parseFloatStr s

/-- The `.toFixed(2)` rounding, on the exact rational value. -/
def roundTo2 (q : ℚ) : ℚ := (round (q * 100) : ℤ) / 100

/-- A raw line item as delivered by the server / held in the cache:
a plain string, a structured object (with JS-optional fields; the
object branch of the parser also consults a `qty` key), or anything
else. -/
inductive Item where
  | strItem : String → Item
  | objItem : Option String → Option ℚ → Option ℚ → Option ℚ → Item
  | otherItem : Item
  deriving Repr, DecidableEq

/-- The `items` field of a raw server order: JSON-encoded string,
already an array, or some other shape. -/
inductive RawItems where
  | strVal : String → RawItems
  | arrVal : List Item → RawItems
  | otherVal : RawItems
  deriving Repr, DecidableEq

/-- An order as held in the client cache (items already decoded).
`created_at` is the millisecond timestamp `new Date(o.created_at).getTime()`. -/
structure Order where
  id : String
  status : String
  total : JVal
  created_at : Nat
  items : List Item
  deriving Repr, DecidableEq

/-- An order as returned by `GET /api/orders`, before the queryFn
decodes its `items` field. -/
structure RawOrder where
  id : String
  status : String
  total : JVal
  created_at : Nat
  items : RawItems
  deriving Repr, DecidableEq

/-- The Dashboard component's local state (first variant of
Dashboard.tsx): the react-query cache for `/api/orders`, the
localStorage-backed visible-id set and reset time, the highlight set,
the revenue counter, and counters for the observable notifications
(sound, info toast, error toast). -/
structure DashState where
  queryData : List Order
  visibleOrderIds : List String
  newOrderIds : List String
  totalRevenue : JNum
  resetTime : Nat
  soundCount : Nat
  toastCount : Nat
  errorToastCount : Nat
  deriving Repr, DecidableEq

/-- Model of `allOrders.filter((o) => visibleOrderIds.has(o.id))`. -/
def filteredOrders (st : DashState) : List Order :=
  st.queryData.filter (fun o => st.visibleOrderIds.contains o.id)

/-- The revenue reduce:
`orders.filter(o => o.status === "completed").reduce((sum, o) => sum + parseFloat(o.total || 0), 0)`.
Note there is no NaN guard in this fold. -/
def revenueReduce (orders : List Order) : JNum :=
  (orders.filter (fun o => o.status = "completed")).foldl
    (fun sum o => jsAdd sum (parseFloatJV (jsOrZero o.total))) (some 0)

/-- The `useEffect` that recomputes `totalRevenue` from the filtered
orders whenever they change. -/
def revenueEffect (st : DashState) : DashState :=
  { st with totalRevenue := revenueReduce (filteredOrders st) }

/-- The `o.items` decoding inside the queryFn:
string → `JSON.parse(o.items || "[]")` (a throw is `none`),
array → kept, anything else → `[]`.  `JSON.parse` itself is a
platform builtin; it is passed in as the decode function `jsonDec`
(`none` models a parse exception). -/
def decodeItems (jsonDec : String → Option (List Item)) :
    RawItems → Option (List Item)
  | .strVal s => if s = "" then some [] else jsonDec s
  | .arrVal l => some l
  | .otherVal => some []

/-- One raw order through the queryFn's `.map`. -/
def parseRawOrder (jsonDec : String → Option (List Item)) (o : RawOrder) :
    Option Order :=
  (decodeItems jsonDec o.items).map fun its =>
    { id := o.id, status := o.status, total := o.total,
      created_at := o.created_at, items := its }

/-- The whole snapshot through the queryFn's `.map`; a single item
decode throw fails the whole fetch. -/
def parseSnapshot (jsonDec : String → Option (List Item)) :
    List RawOrder → Option (List Order)
  | [] => some []
  | r :: rs =>
      match parseRawOrder jsonDec r, parseSnapshot jsonDec rs with
      | some o, some os => some (o :: os)
      | _, _ => none

/-- Applying one poll result: on success the parsed list replaces the
cache and the revenue effect re-runs; a throw (failed fetch or item
decode) leaves the previous state intact. -/
def queryFn (jsonDec : String → Option (List Item)) (st : DashState)
    (raw : List RawOrder) : DashState :=
  match parseSnapshot jsonDec raw with
  | some orders => revenueEffect { st with queryData := orders }
  | none => st

/-- Model of `handleNewOrder` (Dashboard.tsx, first variant): drop the event if
it predates the reset boundary; otherwise dedupe the cache insert by
id, add the id to the visible set and the highlight set, play the
sound and show the toast — the notifications are unconditional. -/
def handleNewOrder (st : DashState) (o : Order) : DashState :=
  if o.created_at < st.resetTime then st
  else
    let exists0 := st.queryData.any (fun p => p.id = o.id)
    { st with
      queryData := if exists0 then st.queryData else o :: st.queryData,
      visibleOrderIds :=
        if st.visibleOrderIds.contains o.id then st.visibleOrderIds
        else o.id :: st.visibleOrderIds,
      newOrderIds :=
        if st.newOrderIds.contains o.id then st.newOrderIds
        else o.id :: st.newOrderIds,
      soundCount := st.soundCount + 1,
      toastCount := st.toastCount + 1 }

/-- Model of `handleReset` (confirmed branch): record `now` as the reset time,
clear the visible-id set, zero the revenue counter, toast. -/
def handleReset (st : DashState) (now : Nat) : DashState :=
  { st with
    resetTime := now,
    visibleOrderIds := [],
    totalRevenue := some 0,
    toastCount := st.toastCount + 1 }

/-- The per-entry map inside `onSuccess`:
`o.id === updated.id ? { ...o, status: "completed" } : o`. -/
def completeFlip (upd o : Order) : Order :=
  if o.id = upd.id then { o with status := "completed" } else o

/-- Model of `completeOrderMutation.onSuccess(updatedOrder)`: flip the cached
entry's status to completed, add the confirmed amount to the revenue
counter with the `isNaN(added) ? 0 : added` guard, toast. -/
def completeOrderSuccess (st : DashState) (upd : Order) : DashState :=
  let added := parseFloatJV (jsOrZero upd.total)
  { st with
    queryData := st.queryData.map (completeFlip upd),
    totalRevenue := jsAdd st.totalRevenue (some (added.getD 0)),
    toastCount := st.toastCount + 1 }

/-- Model of `completeOrderMutation.onError`: the request failed; nothing but
an error toast happens (there is no onMutate, so no optimistic state
existed to roll back). -/
def completeOrderFailure (st : DashState) : DashState :=
  { st with errorToastCount := st.errorToastCount + 1 }

/-- Model of `filteredOrders.filter(o => o.status === "pending")`. -/
def pendingOrders (st : DashState) : List Order :=
  (filteredOrders st).filter (fun o => o.status = "pending")

/-- Model of `filteredOrders.filter(o => o.status === "completed")`. -/
def completedOrders (st : DashState) : List Order :=
  (filteredOrders st).filter (fun o => o.status = "completed")

/-- Model of `avgValue = completed.length > 0 ? (totalRevenue / completed.length).toFixed(2) : "0.00"`
(the rendered string's exact rational value; NaN stays `none`). -/
def avgValue (st : DashState) : JNum :=
  if (completedOrders st).length > 0 then
    (st.totalRevenue).map fun r => roundTo2 (r / (completedOrders st).length)
  else some 0

/-- The whole deployment as seen by the client: the server-side Order
Store plus the dashboard's local state. -/
structure SystemState where
  server : List Order
  dash : DashState
  deriving Repr, DecidableEq

/-- Model of `GET /api/orders` (routes.ts): the order list held by the store. -/
def getOrders (sys : SystemState) : List Order := sys.server

/-- The reset action on the whole system: `handleReset` is purely
client-local; it issues no request and touches no server order. -/
def handleResetSys (sys : SystemState) (now : Nat) : SystemState :=
  { sys with dash := handleReset sys.dash now }

/-- The WebSocket envelope `{type, order}`. -/
structure WsMessage where
  type : String
  order : Option Order
  deriving Repr, DecidableEq

/-- The props the `useWebSocket` hook declares: optional `onNewOrder`
and `onOrderUpdated` callbacks (use-websocket hook as bundled with
Dashboard.tsx). -/
structure WsCallbacks where
  onNewOrder : Option (DashState → Order → DashState)
  onOrderUpdated : Option (DashState → Order → DashState)

/-- The hook's `ws.onmessage` handler: dispatch `NEW_ORDER` to
`onNewOrder` and `ORDER_UPDATED` to `onOrderUpdated` when the callback
was supplied and the message carries an order; otherwise do nothing. -/
def wsOnMessage (cbs : WsCallbacks) (st : DashState) (msg : WsMessage) :
    DashState :=
  if msg.type = "NEW_ORDER" then
    match msg.order, cbs.onNewOrder with
    | some o, some f => f st o
    | _, _ => st
  else if msg.type = "ORDER_UPDATED" then
    match msg.order, cbs.onOrderUpdated with
    | some o, some f => f st o
    | _, _ => st
  else st

/-- What the Dashboard actually hands the hook: it passes
`{url, onMessage}`, neither of which is a prop the hook declares, so
from the hook's point of view both callbacks are absent. -/
def dashboardWsCallbacks : WsCallbacks := ⟨none, none⟩

/-- The Dashboard's own `onMessage` closure (never invoked by the
hook): it would forward only messages whose type is the lowercase
string `"new_order"` to `handleNewOrder`. -/
def dashOnMessage (st : DashState) (msg : WsMessage) : DashState :=
  if msg.type = "new_order" then
    match msg.order with
    | some o => handleNewOrder st o
    | none => st
  else st

/-- State of the highlight bookkeeping: the `newOrderIds` set plus the
single pending `setTimeout` deadline (absolute ms), if one is armed. -/
structure HiState where
  ids : List String
  deadline : Option Nat
  deriving Repr, DecidableEq

/-- Let a due timer fire: at any time `t`, if the armed deadline is
`≤ t`, the timeout callback `setNewOrderIds(new Set())` has run,
clearing the whole set; the effect then re-runs on an empty set and
arms no new timer. -/
def fireTimer (t : Nat) (st : HiState) : HiState :=
  match st.deadline with
  | some d => if d ≤ t then ⟨[], none⟩ else st
  | none => st

/-- A `NEW_ORDER` insertion at time `t`: any already-due timer has
fired first; the id is added to the set; the effect re-runs (the set
changed), its cleanup clears the previous timer, and a fresh 5000 ms
timeout is armed. -/
def highlightInsert (t : Nat) (oid : String) (st : HiState) : HiState :=
  let st1 := fireTimer t st
  ⟨if st1.ids.contains oid then st1.ids else oid :: st1.ids, some (t + 5000)⟩

/-- Run a time-ordered list of insertions from the empty state. -/
def runHighlights (evs : List (Nat × String)) : HiState :=
  evs.foldl (fun s e => highlightInsert e.1 e.2 s) ⟨[], none⟩

/-- Whether order `oid` is highlighted at time `t`, after the
insertions in `evs` (all at times `≤ t`) and any due timer firing. -/
def highlightedAt (evs : List (Nat × String)) (oid : String) (t : Nat) :
    Bool :=
  (fireTimer t (runHighlights evs)).ids.contains oid

/-- The normalised line item OrderCard renders. -/
structure SafeItem where
  name : String
  quantity : ℚ
  price : ℚ
  deriving Repr, DecidableEq

/-- The regex match `item.match(/^(\d+)x\s+(.+)$/)`: a digit run, a
literal `x`, at least one whitespace character, then a nonempty
remainder with no line terminator (`.` does not cross newlines; with a
whitespace run of length ≥ 2 and nothing after it, `\s+` backtracks
one character so `(.+)` can take it). -/
def matchQtyName (s : String) : Option (Nat × String) :=
  let cs := s.data
  let ds := cs.takeWhile Char.isDigit
  let rest1 := cs.dropWhile Char.isDigit
  if ds.isEmpty then none
  else
    match rest1 with
    | 'x' :: rest2 =>
        let ws := rest2.takeWhile isJsSpace
        let rest3 := rest2.dropWhile isJsSpace
        if ws.isEmpty then none
        else if rest3.isEmpty then
          match ws.getLast? with
          | some c =>
              if ws.length ≥ 2 && !(c = '\n' || c = '\r') then
                some (digitsToNat ds, String.mk [c])
              else none
          | none => none
        else if rest3.any (fun c => c = '\n' || c = '\r') then none
        else some (digitsToNat ds, String.mk rest3)
    | _ => none

/-- Model of `item.name || "Unknown"` (empty string is falsy). -/
def jsNameOr (v : Option String) (d : String) : String :=
  match v with
  | some s => if s = "" then d else s
  | none => d

/-- Model of `a || b` on a JS-optional number (0 is falsy). -/
def jsNumOr (v : Option ℚ) (d : ℚ) : ℚ :=
  match v with
  | some q => if q = 0 then d else q
  | none => d

/-- Model of `a || b` chaining into a further JS-optional number. -/
def jsNumOrOpt (v : Option ℚ) (d : Option ℚ) : Option ℚ :=
  match v with
  | some q => if q = 0 then d else some q
  | none => d

/-- One item through OrderCard's `safeItems` map (Dashboard variant of
OrderCard.tsx, which also carries `price`): string items go through the
`/^(\d+)x\s+(.+)$/` match with price 0; object items default
`name` to "Unknown", `quantity` to `item.quantity || item.qty || 1`,
`price` to `item.price || 0`; anything else becomes the Unknown item. -/
def parseItem : Item → SafeItem
  | .strItem s =>
      match matchQtyName s with
      | some (q, n) => ⟨n, (q : ℚ), 0⟩
      | none => ⟨s, 1, 0⟩
  | .objItem name quantity qty price =>
      ⟨jsNameOr name "Unknown",
       jsNumOr (jsNumOrOpt quantity qty) 1,
       jsNumOr price 0⟩
  | .otherItem => ⟨"Unknown", 1, 0⟩

/-- Model of `safeItems`: the defensive normalisation over the whole list. -/
def safeItems (items : List Item) : List SafeItem :=
  items.map parseItem

/-- The variants that rebase metrics against a stored baseline
(part_006 / part_008 / part_009): revenue over all completed fetched
orders, no reset filter on the list itself. -/
def totalRevenueAll (orders : List Order) : JNum := revenueReduce orders

/-- Model of `completedOrders.length` over a fetched list. -/
def completedCount (orders : List Order) : Nat :=
  (orders.filter (fun o => o.status = "completed")).length

/-- Model of `displayedRevenue = totalRevenue - baseRevenue` (part_006; NaN
propagates, no clamp). -/
def displayedRevenue (orders : List Order) (baseRevenue : JNum) : JNum :=
  match totalRevenueAll orders, baseRevenue with
  | some r, some b => some (r - b)
  | _, _ => none

/-- Model of `displayedCompleted = completedOrders.length - baseCompleted`
(part_006 / part_009; an integer, possibly negative). -/
def displayedCompleted (orders : List Order) (baseCompleted : ℤ) : ℤ :=
  (completedCount orders : ℤ) - baseCompleted

/-- The count handed to RevenueCard in part_006 / part_009:
`Math.max(displayedCompleted, 0)`. -/
def revenueCardCompleted (orders : List Order) (baseCompleted : ℤ) : ℤ :=
  max (displayedCompleted orders baseCompleted) 0

/-- The count handed to RevenueCard in part_008:
`visibleCompleted < 0 ? 0 : visibleCompleted`. -/
def revenueCardCompletedTernary (orders : List Order)
    (baseCompleted : ℤ) : ℤ :=
  if displayedCompleted orders baseCompleted < 0 then 0
  else displayedCompleted orders baseCompleted

/-- The revenue figure handed to RevenueCard in these variants:
`(totalRevenue - baseRevenue).toFixed(2)` — no clamp. -/
def revenueCardRevenue (orders : List Order) (baseRevenue : JNum) : JNum :=
  (displayedRevenue orders baseRevenue).map roundTo2

/-- Concrete order / state instances used by witness and
counterexample theorems. -/
def oResetW : Order := ⟨"w1", "completed", .undef, 3, []⟩

def sysResetW : SystemState :=
  ⟨[oResetW], ⟨[oResetW], ["w1"], [], some 0, 0, 0, 0, 0⟩⟩

/-- A ledger state holding order id 1 recorded as completed. -/
def stCompleted1 : DashState :=
  ⟨[⟨"1", "completed", .undef, 100, []⟩], ["1"], [], some 0, 0, 0, 0, 0⟩

/-- A ledger already holding (and showing) pending order id 1, with no
notification fired yet. -/
def stDup1 : DashState :=
  ⟨[⟨"1", "pending", .undef, 10, []⟩], ["1"], [], some 0, 0, 0, 0, 0⟩

/-- A visible completed order whose `total` is the non-numeric string
"abc". -/
def stNonNumericTotal : DashState :=
  ⟨[⟨"9", "completed", .str "abc", 0, []⟩], ["9"], [], some 0, 0, 0, 0, 0⟩

/-- The spec's fixed example: three visible completed orders with
totals 45.50, 28.75 and 32.00. -/
def stRevenueExample : DashState :=
  ⟨[⟨"1", "completed", .num (91/2), 0, []⟩,
    ⟨"2", "completed", .num (115/4), 0, []⟩,
    ⟨"3", "completed", .num 32, 0, []⟩],
   ["1", "2", "3"], [], some 0, 0, 0, 0, 0⟩

/-- Ledger as after a poll that returned two pending orders id 1 and
id 2 (both visible), with no revenue yet. -/
def stTwoPending : DashState :=
  ⟨[⟨"1", "pending", .str "28.75", 1000, []⟩,
    ⟨"2", "pending", .str "12.00", 1000, []⟩],
   ["1", "2"], [], some 0, 0, 0, 0, 0⟩

/-- The push envelope for the scenario: ORDER_UPDATED for id 1 with
status completed and total 28.75. -/
def updMsg1 : WsMessage :=
  ⟨"ORDER_UPDATED", some ⟨"1", "completed", .str "28.75", 1000, []⟩⟩

/-! Helper lemmas shared between the claim theorems. -/

lemma filter_contains_nil (l : List Order) :
    l.filter (fun o => ([] : List String).contains o.id) = [] := by
  induction l with
  | nil => rfl
  | cons h t ih => simp [List.filter_cons, ih]

lemma parseRawOrder_spec {jsonDec : String → Option (List Item)}
    {r : RawOrder} {p : Order} (h : parseRawOrder jsonDec r = some p) :
    p.id = r.id ∧ p.status = r.status := by
  unfold parseRawOrder at h
  cases hd : decodeItems jsonDec r.items with
  | none => rw [hd] at h; simp at h
  | some its => rw [hd] at h; simp at h; subst h; exact ⟨rfl, rfl⟩

lemma parseSnapshot_mem {jsonDec : String → Option (List Item)}
    {raw : List RawOrder} {orders : List Order}
    (h : parseSnapshot jsonDec raw = some orders) :
    ∀ p ∈ orders, ∃ r ∈ raw, parseRawOrder jsonDec r = some p := by
  induction raw generalizing orders with
  | nil =>
      unfold parseSnapshot at h
      simp at h
      subst h
      simp
  | cons r rs ih =>
      unfold parseSnapshot at h
      cases h1 : parseRawOrder jsonDec r with
      | none => rw [h1] at h; simp at h
      | some o =>
          rw [h1] at h
          cases h2 : parseSnapshot jsonDec rs with
          | none => rw [h2] at h; simp at h
          | some os =>
              rw [h2] at h
              simp at h
              subst h
              intro p hp
              rcases List.mem_cons.mp hp with rfl | hp
              · exact ⟨r, List.mem_cons_self .., h1⟩
              · obtain ⟨r2, hr2, hpr⟩ := ih h2 p hp
                exact ⟨r2, List.mem_cons_of_mem _ hr2, hpr⟩

/-- C5: applying the same snapshot twice through the queryFn path
(item decoding, cache replacement, revenue recomputation) yields the
same ledger state as applying it once. -/
theorem queryFn_idempotent (jsonDec : String → Option (List Item))
    (st : DashState) (raw : List RawOrder) :
    queryFn jsonDec (queryFn jsonDec st raw) raw = queryFn jsonDec st raw := by
  unfold queryFn
  cases h : parseSnapshot jsonDec raw with
  | none => simp
  | some orders => simp [revenueEffect, filteredOrders]

/-- C3: `handleReset` at time `T` touches no server-side order (every
order stays retrievable from the store); immediately afterwards the
completed list is empty and `totalRevenue` is 0, both remain so across
any subsequent poll (so a pre-reset completed order contributes 0 and
never shows), and a pushed order created before `T` is dropped
entirely. -/
theorem handleReset_frame_and_isolation
    (sys : SystemState) (T : Nat) (o p : Order)
    (jsonDec : String → Option (List Item)) (raw : List RawOrder)
    (hmem : o ∈ getOrders sys) (_hage : o.created_at < T)
    (_hst : o.status = "completed") (hp : p.created_at < T) :
    (handleResetSys sys T).server = sys.server ∧
    o ∈ getOrders (handleResetSys sys T) ∧
    (handleResetSys sys T).dash.totalRevenue = some 0 ∧
    completedOrders (handleResetSys sys T).dash = [] ∧
    o ∉ completedOrders (queryFn jsonDec (handleResetSys sys T).dash raw) ∧
    (queryFn jsonDec (handleResetSys sys T).dash raw).totalRevenue = some 0 ∧
    handleNewOrder (handleResetSys sys T).dash p = (handleResetSys sys T).dash := by
  refine ⟨rfl, hmem, rfl, ?_, ?_, ?_, ?_⟩
  · simp [completedOrders, filteredOrders, handleResetSys, handleReset,
      filter_contains_nil]
  · unfold queryFn
    cases h : parseSnapshot jsonDec raw with
    | none =>
        simp [completedOrders, filteredOrders, handleResetSys, handleReset,
          filter_contains_nil]
    | some orders =>
        simp [completedOrders, revenueEffect, filteredOrders, handleResetSys,
          handleReset, filter_contains_nil]
  · unfold queryFn
    cases h : parseSnapshot jsonDec raw with
    | none => rfl
    | some orders =>
        simp [revenueEffect, revenueReduce, filteredOrders, handleResetSys,
          handleReset, filter_contains_nil]
  · unfold handleNewOrder
    rw [if_pos]
    exact hp

/-- C3 witness: the reset theorem instantiated at a concrete system,
boundary 10, a concrete pre-reset completed order, a trivial snapshot
and a pre-reset push. -/
theorem handleReset_frame_and_isolation_witness :
    (handleResetSys sysResetW 10).server = sysResetW.server ∧
    oResetW ∈ getOrders (handleResetSys sysResetW 10) ∧
    (handleResetSys sysResetW 10).dash.totalRevenue = some 0 ∧
    completedOrders (handleResetSys sysResetW 10).dash = [] ∧
    oResetW ∉ completedOrders
      (queryFn (fun _ => some []) (handleResetSys sysResetW 10).dash
        [⟨"w1", "completed", .undef, 3, .arrVal []⟩]) ∧
    (queryFn (fun _ => some []) (handleResetSys sysResetW 10).dash
        [⟨"w1", "completed", .undef, 3, .arrVal []⟩]).totalRevenue = some 0 ∧
    handleNewOrder (handleResetSys sysResetW 10).dash oResetW =
      (handleResetSys sysResetW 10).dash :=
  handleReset_frame_and_isolation sysResetW 10 oResetW oResetW
    (fun _ => some []) [⟨"w1", "completed", .undef, 3, .arrVal []⟩]
    (by simp [sysResetW, getOrders]) (by decide) rfl (by decide)

/-- C2 counterexample: the queryFn path adopts the polled snapshot
verbatim, so a snapshot reporting order 1 as pending reverts its
locally-recorded completed status back to pending. -/
theorem queryFn_reverts_completed_counterexample :
    (⟨"1", "completed", .undef, 100, []⟩ : Order) ∈ stCompleted1.queryData ∧
    ((queryFn (fun _ => some []) stCompleted1
        [⟨"1", "pending", .undef, 100, .arrVal []⟩]).queryData.map
      Order.status) = ["pending"] := by
  decide

/-- C2 amended: once an order is recorded completed, a NEW_ORDER push
event never alters the existing entry, and a completion confirmation
keeps every entry with that id completed; the polled-snapshot path
keeps it completed only under the extra condition that the snapshot
itself reports that id as completed (the merge adopts the server
status verbatim, so a snapshot reporting pending reverts it). -/
theorem status_monotone_amended
    (st : DashState) (o po upd p : Order)
    (jsonDec : String → Option (List Item)) (raw : List RawOrder)
    (orders : List Order)
    (hmem : o ∈ st.queryData) (hc : o.status = "completed")
    (hparse : parseSnapshot jsonDec raw = some orders)
    (hsrv : ∀ r ∈ raw, r.id = o.id → r.status = "completed")
    (hpmem : p ∈ (queryFn jsonDec st raw).queryData) (hpid : p.id = o.id) :
    o ∈ (handleNewOrder st po).queryData ∧
    completeFlip upd o ∈ (completeOrderSuccess st upd).queryData ∧
    (completeFlip upd o).status = "completed" ∧
    p.status = "completed" := by
  refine ⟨?_, ?_, ?_, ?_⟩
  · unfold handleNewOrder
    by_cases h : po.created_at < st.resetTime
    · rw [if_pos h]; exact hmem
    · rw [if_neg h]
      by_cases h2 : st.queryData.any (fun q => q.id = po.id)
      · simpa [h2] using hmem
      · simp only [h2]
        simp only [Bool.false_eq_true, if_false]
        exact List.mem_cons_of_mem _ hmem
  · exact List.mem_map_of_mem _ hmem
  · unfold completeFlip
    by_cases h : o.id = upd.id
    · rw [if_pos h]
    · rw [if_neg h]; exact hc
  · have hq : (queryFn jsonDec st raw).queryData = orders := by
      unfold queryFn
      rw [hparse]
      rfl
    rw [hq] at hpmem
    obtain ⟨r, hr, hpr⟩ := parseSnapshot_mem hparse p hpmem
    obtain ⟨hid, hstat⟩ := parseRawOrder_spec hpr
    rw [hstat]
    exact hsrv r hr (by rw [← hid, hpid])

/-- C2 witness: the amended monotonicity theorem applied at a concrete
completed order, a completed-reporting snapshot, a push and a
confirmation. -/
theorem status_monotone_amended_witness :
    (⟨"1", "completed", .undef, 100, []⟩ : Order) ∈
      (handleNewOrder stCompleted1 ⟨"1", "completed", .undef, 100, []⟩).queryData ∧
    completeFlip ⟨"1", "completed", .undef, 100, []⟩
        ⟨"1", "completed", .undef, 100, []⟩ ∈
      (completeOrderSuccess stCompleted1
        ⟨"1", "completed", .undef, 100, []⟩).queryData ∧
    (completeFlip ⟨"1", "completed", .undef, 100, []⟩
        ⟨"1", "completed", .undef, 100, []⟩).status = "completed" ∧
    (⟨"1", "completed", .undef, 100, []⟩ : Order).status = "completed" :=
  status_monotone_amended stCompleted1
    ⟨"1", "completed", .undef, 100, []⟩ ⟨"1", "completed", .undef, 100, []⟩
    ⟨"1", "completed", .undef, 100, []⟩ ⟨"1", "completed", .undef, 100, []⟩
    (fun _ => some []) [⟨"1", "completed", .undef, 100, .arrVal []⟩]
    [⟨"1", "completed", .undef, 100, []⟩]
    (by decide) rfl (by decide) (by decide) (by decide) rfl

/-- C1 counterexample: delivering a NEW_ORDER for an id already in the
ledger adds no entry, but the notification still fires — the sound and
toast counters increment and the id is highlighted again. -/
theorem newOrder_duplicate_notifies_counterexample :
    stDup1.queryData.any
      (fun p => p.id = (⟨"1", "pending", .undef, 10, []⟩ : Order).id) = true ∧
    (handleNewOrder stDup1 ⟨"1", "pending", .undef, 10, []⟩).queryData =
      stDup1.queryData ∧
    (handleNewOrder stDup1 ⟨"1", "pending", .undef, 10, []⟩).soundCount =
      stDup1.soundCount + 1 ∧
    (handleNewOrder stDup1 ⟨"1", "pending", .undef, 10, []⟩).toastCount =
      stDup1.toastCount + 1 := by
  decide

/-- C1 amended: a NEW_ORDER push event for an id already present (and
not predating the reset boundary) leaves the ledger's entry list
unchanged — no duplicate entry — but the notification is not
suppressed: the sound plays, the toast shows, and the id is put in the
highlight set again. -/
theorem newOrder_duplicate_amended
    (st : DashState) (o : Order)
    (hts : st.resetTime ≤ o.created_at)
    (hdup : st.queryData.any (fun p => p.id = o.id) = true) :
    (handleNewOrder st o).queryData = st.queryData ∧
    (handleNewOrder st o).soundCount = st.soundCount + 1 ∧
    (handleNewOrder st o).toastCount = st.toastCount + 1 ∧
    o.id ∈ (handleNewOrder st o).newOrderIds := by
  unfold handleNewOrder
  rw [if_neg (by omega)]
  refine ⟨by simp [hdup], rfl, rfl, ?_⟩
  by_cases h : st.newOrderIds.contains o.id
  · simp only [h, if_true]
    exact List.mem_of_elem_eq_true h
  · simp only [h]
    simp only [Bool.false_eq_true, if_false]
    exact List.mem_cons_self ..

/-- C1 witness: the amended duplicate-event theorem at the concrete
duplicate delivery. -/
theorem newOrder_duplicate_amended_witness :
    (handleNewOrder stDup1 ⟨"1", "pending", .undef, 10, []⟩).queryData =
      stDup1.queryData ∧
    (handleNewOrder stDup1 ⟨"1", "pending", .undef, 10, []⟩).soundCount =
      stDup1.soundCount + 1 ∧
    (handleNewOrder stDup1 ⟨"1", "pending", .undef, 10, []⟩).toastCount =
      stDup1.toastCount + 1 ∧
    (⟨"1", "pending", .undef, 10, []⟩ : Order).id ∈
      (handleNewOrder stDup1 ⟨"1", "pending", .undef, 10, []⟩).newOrderIds :=
  newOrder_duplicate_amended stDup1 ⟨"1", "pending", .undef, 10, []⟩
    (by decide) (by decide)

/-- C4 counterexample: a completed order whose `total` is a
non-numeric string makes the recomputed `totalRevenue` NaN — the
reduce `sum + parseFloat(o.total || 0)` has no isNaN guard, so
"the result is never NaN" fails. -/
theorem revenue_nan_counterexample :
    (revenueEffect stNonNumericTotal).totalRevenue = none := by
  decide

/-- C4 amended: for the example totals [45.50, 28.75, 32.00] the
recomputed `totalRevenue` is 106.25 and the rendered
`averageOrderValue` is 35.42; a completed order with a missing
(undefined) amount contributes 0; and with no completed orders the
average renders as 0.00.  However a non-numeric string amount yields
NaN rather than 0 (the fold has no isNaN guard), so the
"never NaN" part of the claim is dropped. -/
theorem revenue_metrics_amended
    (orders : List Order) (o : Order) (st : DashState)
    (hmiss : o.total = .undef) (hcomp : o.status = "completed")
    (hempty : completedOrders st = []) :
    (revenueEffect stRevenueExample).totalRevenue = some (425/4) ∧
    avgValue (revenueEffect stRevenueExample) = some (3542/100) ∧
    revenueReduce (o :: orders) = revenueReduce orders ∧
    avgValue st = some 0 := by
  refine ⟨?_, ?_, ?_, ?_⟩
  · simp [revenueEffect, revenueReduce, filteredOrders, stRevenueExample,
      jsOrZero, jvTruthy, parseFloatJV, jsAdd, List.filter, List.foldl]
    norm_num
  · simp [avgValue, completedOrders, revenueEffect, revenueReduce,
      filteredOrders, stRevenueExample, jsOrZero, jvTruthy, parseFloatJV,
      jsAdd, List.filter, List.foldl, roundTo2]
    norm_num [round_eq]
  · unfold revenueReduce
    rw [List.filter_cons_of_pos (by simp [hcomp])]
    rw [List.foldl_cons]
    simp [hmiss, jsOrZero, jvTruthy, parseFloatJV, jsAdd]
  · simp [avgValue, hempty]

/-- C4 witness: the amended revenue theorem at a concrete missing
amount and an empty completed list. -/
theorem revenue_metrics_amended_witness :
    (revenueEffect stRevenueExample).totalRevenue = some (425/4) ∧
    avgValue (revenueEffect stRevenueExample) = some (3542/100) ∧
    revenueReduce [⟨"m", "completed", .undef, 0, []⟩] = revenueReduce [] ∧
    avgValue ⟨[], [], [], some 0, 0, 0, 0, 0⟩ = some 0 :=
  revenue_metrics_amended [] ⟨"m", "completed", .undef, 0, []⟩
    ⟨[], [], [], some 0, 0, 0, 0, 0⟩ rfl rfl (by decide)

/-- C6: the completion mutation never touches the ledger before the
server answers (there is no onMutate, so no optimistic state exists).
On failure the cached entries — in particular the still-pending order
— and the revenue counter are untouched, and an error toast is
surfaced; the revenue increment happens only on the success
confirmation, so a failed attempt followed by a successful retry adds
the confirmed amount exactly once. -/
theorem completeOrderMutation_failure_rollback
    (st : DashState) (o upd : Order)
    (hmem : o ∈ st.queryData) (hp : o.status = "pending") :
    (completeOrderFailure st).queryData = st.queryData ∧
    o ∈ (completeOrderFailure st).queryData ∧
    o.status = "pending" ∧
    (completeOrderFailure st).totalRevenue = st.totalRevenue ∧
    (completeOrderFailure st).errorToastCount = st.errorToastCount + 1 ∧
    (completeOrderSuccess (completeOrderFailure st) upd).totalRevenue =
      jsAdd st.totalRevenue
        (some ((parseFloatJV (jsOrZero upd.total)).getD 0)) := by
  exact ⟨rfl, hmem, hp, rfl, rfl, rfl⟩

/-- C6 witness: the mutation theorem at a concrete pending order and a
concrete confirmed update. -/
theorem completeOrderMutation_failure_rollback_witness :
    (completeOrderFailure stDup1).queryData = stDup1.queryData ∧
    (⟨"1", "pending", .undef, 10, []⟩ : Order) ∈
      (completeOrderFailure stDup1).queryData ∧
    (⟨"1", "pending", .undef, 10, []⟩ : Order).status = "pending" ∧
    (completeOrderFailure stDup1).totalRevenue = stDup1.totalRevenue ∧
    (completeOrderFailure stDup1).errorToastCount =
      stDup1.errorToastCount + 1 ∧
    (completeOrderSuccess (completeOrderFailure stDup1)
        ⟨"1", "completed", .undef, 10, []⟩).totalRevenue =
      jsAdd stDup1.totalRevenue
        (some ((parseFloatJV
          (jsOrZero (⟨"1", "completed", .undef, 10, []⟩ : Order).total)).getD 0)) :=
  completeOrderMutation_failure_rollback stDup1
    ⟨"1", "pending", .undef, 10, []⟩ ⟨"1", "completed", .undef, 10, []⟩
    (by decide) rfl

/-- C7: the ORDER_UPDATED push is dropped on the floor.  The hook
dispatches it only to an `onOrderUpdated` prop, but the Dashboard
passes `{url, onMessage}` — neither a prop the hook declares — so both
hook callbacks are absent and the message leaves the state untouched;
the Dashboard's own `onMessage` closure (never called by the hook)
would drop it too, since it matches only the lowercase `"new_order"`.
The ledger therefore still shows two pending orders, no completed
order, and revenue 0 — not the one-pending/one-completed/28.75 state
the claim requires. -/
theorem orderUpdated_event_dropped :
    (pendingOrders stTwoPending).length = 2 ∧
    wsOnMessage dashboardWsCallbacks stTwoPending updMsg1 = stTwoPending ∧
    dashOnMessage stTwoPending updMsg1 = stTwoPending ∧
    (pendingOrders
      (wsOnMessage dashboardWsCallbacks stTwoPending updMsg1)).length = 2 ∧
    (completedOrders
      (wsOnMessage dashboardWsCallbacks stTwoPending updMsg1)).length = 0 ∧
    (revenueEffect
      (wsOnMessage dashboardWsCallbacks stTwoPending updMsg1)).totalRevenue =
      some 0 := by
  decide

/-- C8 counterexample: order A is inserted at t=0 and order B at
t=3000 ms.  Alone, A would lose its highlight by t=6000 ms (third
conjunct), but B's insertion cancelled and re-armed the single shared
timer, so at t=6000 ms — more than 5 seconds after A's own insertion —
A is still highlighted: the timer is global, not per-order, and a
later insertion does extend an earlier order's highlight. -/
theorem highlight_not_per_order_counterexample :
    highlightedAt [(0, "A")] "A" 0 = true ∧
    highlightedAt [(0, "A")] "A" 6000 = false ∧
    highlightedAt [(0, "A"), (3000, "B")] "A" 6000 = true ∧
    highlightedAt [(0, "A"), (3000, "B")] "A" 8000 = false := by
  decide

/-- C8 amended: an order inserted via NEW_ORDER is highlighted
immediately, but expiry is governed by one global `setTimeout` that
every change to the highlight set cancels and re-arms: after a second
insertion within the 5-second window, the first order stays
highlighted exactly until 5 seconds after the *latest* insertion, at
which point all highlights clear together. -/
theorem highlight_global_timer_amended
    (a g t : Nat) (o₁ o₂ : String)
    (hne : o₁ ≠ o₂) (hg : g < 5000) (_ht : a + g ≤ t) :
    highlightedAt [(a, o₁)] o₁ a = true ∧
    highlightedAt [(a, o₁), (a + g, o₂)] o₁ t = decide (t < a + g + 5000) := by
  have hstep1 : highlightInsert a o₁ ⟨[], none⟩ = ⟨[o₁], some (a + 5000)⟩ := by
    simp [highlightInsert, fireTimer]
  have hstep2 : highlightInsert (a + g) o₂ ⟨[o₁], some (a + 5000)⟩ =
      ⟨[o₂, o₁], some (a + g + 5000)⟩ := by
    simp only [highlightInsert, fireTimer]
    rw [if_neg (show ¬ a + 5000 ≤ a + g by omega)]
    simp [Ne.symm hne]
  have h1 : runHighlights [(a, o₁)] = ⟨[o₁], some (a + 5000)⟩ := by
    simp [runHighlights, hstep1]
  have h2 : runHighlights [(a, o₁), (a + g, o₂)] =
      ⟨[o₂, o₁], some (a + g + 5000)⟩ := by
    simp [runHighlights, hstep1, hstep2]
  constructor
  · unfold highlightedAt
    rw [h1]
    simp only [fireTimer]
    rw [if_neg (show ¬ a + 5000 ≤ a by omega)]
    simp
  · unfold highlightedAt
    rw [h2]
    simp only [fireTimer]
    by_cases hlt : a + g + 5000 ≤ t
    · rw [if_pos hlt]
      simp
      omega
    · rw [if_neg hlt]
      simp
      omega

/-- C8 witness: the global-timer theorem at insertions 0 and 3000 ms,
queried at 6000 ms. -/
theorem highlight_global_timer_amended_witness :
    highlightedAt [(0, "A")] "A" 0 = true ∧
    highlightedAt [(0, "A"), (0 + 3000, "B")] "A" 6000 =
      decide (6000 < 0 + 3000 + 5000) :=
  highlight_global_timer_amended 0 3000 6000 "A" "B"
    (by decide) (by decide) (by decide)

/-- C9: the defensive item parser maps the string
"2x Margherita Pizza" to quantity 2 / name "Margherita Pizza", maps
the object {name: "Salad"} with no quantity to quantity 1 / price 0,
and in general: an object item with no `quantity`/`qty` gets
quantity 1, an object item with no `price` gets price 0, and a string
item that does not match the `Nx name` pattern becomes the whole
string with quantity 1 and price 0. -/
theorem safeItems_defensive_defaults
    (n : Option String) (q qt p : Option ℚ) (s : String)
    (hnom : matchQtyName s = none) :
    parseItem (.strItem "2x Margherita Pizza") =
      ⟨"Margherita Pizza", 2, 0⟩ ∧
    parseItem (.objItem (some "Salad") none none none) = ⟨"Salad", 1, 0⟩ ∧
    (parseItem (.objItem n none none p)).quantity = 1 ∧
    (parseItem (.objItem n q qt none)).price = 0 ∧
    parseItem (.strItem s) = ⟨s, 1, 0⟩ ∧
    safeItems [.strItem "2x Margherita Pizza",
               .objItem (some "Salad") none none none] =
      [⟨"Margherita Pizza", 2, 0⟩, ⟨"Salad", 1, 0⟩] := by
  refine ⟨by decide, by decide, rfl, rfl, ?_, by decide⟩
  simp [parseItem, hnom]

/-- C9 witness: the parser theorem at the concrete no-match string
"Margherita Pizza" (no leading digits). -/
theorem safeItems_defensive_defaults_witness :
    matchQtyName "Margherita Pizza" = none ∧
    parseItem (.strItem "2x Margherita Pizza") =
      ⟨"Margherita Pizza", 2, 0⟩ ∧
    parseItem (.objItem (some "Salad") none none none) = ⟨"Salad", 1, 0⟩ ∧
    (parseItem (.objItem (some "Salad") none none none)).quantity = 1 ∧
    (parseItem (.objItem (some "Salad") none none none)).price = 0 ∧
    parseItem (.strItem "Margherita Pizza") = ⟨"Margherita Pizza", 1, 0⟩ ∧
    safeItems [.strItem "2x Margherita Pizza",
               .objItem (some "Salad") none none none] =
      [⟨"Margherita Pizza", 2, 0⟩, ⟨"Salad", 1, 0⟩] :=
  ⟨by decide,
   safeItems_defensive_defaults (some "Salad") none none none
     "Margherita Pizza" (by decide)⟩

/-- C10: in the baseline-rebasing reset variants, whenever the stored
baseline completed count exceeds the fetched completed count, the
count handed to RevenueCard is clamped to 0 — by `Math.max(·, 0)` in
part_006/part_009 and by the `< 0 ? 0 : ·` ternary in part_008, which
agree everywhere — while the revenue difference is handed over without
such a clamp: with no completed orders kept and a stored base revenue
of 5 the card receives −5.00. -/
theorem baseline_completed_clamped
    (orders : List Order) (baseCompleted : ℤ)
    (hexceed : (completedCount orders : ℤ) < baseCompleted) :
    revenueCardCompleted orders baseCompleted = 0 ∧
    revenueCardCompletedTernary orders baseCompleted = 0 ∧
    revenueCardCompletedTernary orders baseCompleted =
      revenueCardCompleted orders baseCompleted ∧
    revenueCardRevenue [] (some 5) = some (-5) := by
  refine ⟨?_, ?_, ?_, ?_⟩
  · unfold revenueCardCompleted displayedCompleted
    omega
  · unfold revenueCardCompletedTernary displayedCompleted
    rw [if_pos (by omega)]
  · unfold revenueCardCompletedTernary revenueCardCompleted
      displayedCompleted
    omega
  · simp [revenueCardRevenue, displayedRevenue, totalRevenueAll,
      revenueReduce, roundTo2]
    norm_num [round_eq]

/-- C10 witness: the clamp theorem with no fetched orders and a stored
baseline count of 1. -/
theorem baseline_completed_clamped_witness :
    revenueCardCompleted [] 1 = 0 ∧
    revenueCardCompletedTernary [] 1 = 0 ∧
    revenueCardCompletedTernary [] 1 = revenueCardCompleted [] 1 ∧
    revenueCardRevenue [] (some 5) = some (-5) :=
  baseline_completed_clamped [] 1 (by decide)

